import Mathlib

/-!
Shallow embedding of `setup_datasets.py` from the Movie-Recommendation-Systems
repository.

Modelling conventions:
* A filesystem path is a list of components (`List String`), e.g.
  `["datasets", "MovieLens", "ml-1m"]` stands for `datasets/MovieLens/ml-1m`.
* The filesystem state `FS` records which paths exist as regular files and
  which as directories.  `Path.exists()` is existence in either list;
  `any(p.iterdir())` is modelled as "some entry lies strictly below `p`".
* Console output is a list of printed lines, appended in order.  The exact
  text of each printed line follows the source (`[OK] `, `[INFO] `,
  `[WARNING] `, `[ERROR] ` severity markers); the whitespace padding produced
  by the Python call str.center(70) in `print_header` and the in-place progress
  percentages of the download report hook are not modelled, since no printed
  line of interest depends on them.
* External effects (HTTP download, ZIP extraction, the `kaggle` import and
  the Kaggle API download call) have outcomes fixed by an oracle `World`.
  Each attempted external operation is additionally recorded in an event
  log, so that "no network download / no extraction was performed" is a
  statement about the log.
* Python exceptions are modelled by the `Except PyExn` layer of the monad
  `M`; `try/except` blocks become `pyTry`.  The mutations a body performed
  before raising survive the raise, as in Python.
-/

/-- A filesystem path, as a list of components. -/
abbrev FPath := List String

/-- `listBelow d e` : `d` is an initial segment of `e` (so `e` lies at or
below directory `d`). -/
def listBelow : FPath → FPath → Bool
  | [], _ => true
  | dh :: dt, eh :: et => dh == eh && listBelow dt et
  | _ :: _, [] => false

/-- `strictBelow d e` : `e` lies strictly below directory `d`. -/
def strictBelow (d e : FPath) : Bool :=
  listBelow d e && decide (d.length < e.length)

/-- All nonempty initial segments of a path, shortest first, continuing
from the accumulated path `acc`. -/
def ancestorsFrom (acc : FPath) : FPath → List FPath
  | [] => []
  | x :: xs => (acc ++ [x]) :: ancestorsFrom (acc ++ [x]) xs

/-- All nonempty initial segments of a path (the path itself included):
the directories `mkdir(parents=True)` ensures. -/
def ancestors (p : FPath) : List FPath :=
  ancestorsFrom [] p

/-- Filesystem state: which paths are regular files, which are directories. -/
structure FS where
  files : List FPath
  dirs : List FPath
deriving DecidableEq, Repr

/-- `Path.exists()`: the path is present as a file or as a directory. -/
def FS.pathExists (fs : FS) (p : FPath) : Bool :=
  decide (p ∈ fs.files) || decide (p ∈ fs.dirs)

/-- `any(p.iterdir())`: some recorded entry lies strictly below `p`. -/
def FS.nonemptyDir (fs : FS) (p : FPath) : Bool :=
  fs.files.any (fun e => strictBelow p e) || fs.dirs.any (fun e => strictBelow p e)

/-- Create (or overwrite in place) a regular file at `p`. -/
def FS.addFile (fs : FS) (p : FPath) : FS :=
  if p ∈ fs.files then fs else { fs with files := fs.files ++ [p] }

/-- Create files at `base ++ r` for each relative path `r`. -/
def FS.addFilesUnder (fs : FS) (base : FPath) (rels : List FPath) : FS :=
  rels.foldl (fun a r => a.addFile (base ++ r)) fs

/-- `Path.mkdir(parents=True, exist_ok=True)`: record `p` and all its
ancestors as directories. -/
def FS.mkdirParents (fs : FS) (p : FPath) : FS :=
  { fs with
    dirs := (ancestors p).foldl (fun ds d => if d ∈ ds then ds else ds ++ [d]) fs.dirs }

/-- `Path.unlink()` removes the file (the raising case is handled in the
monadic wrapper `unlink`). -/
def FS.removeFile (fs : FS) (p : FPath) : FS :=
  { fs with files := fs.files.filter (fun q => q ≠ p) }

/-- The possible outcomes of `import kaggle`, as the spec assumes for the
external interface: success, missing credentials (`OSError`), or a
missing package (`ImportError`). -/
inductive ImportOutcome where
  | ok
  | credsMissing
  | notInstalled
deriving DecidableEq, Repr

/-- The Python exceptions this script can encounter. -/
inductive PyExn where
  /-- `OSError` raised by `import kaggle` when credentials are missing. -/
  | osError
  /-- `ImportError` when the `kaggle` package is not installed. -/
  | importError
  /-- any exception raised by `urllib.request.urlretrieve`. -/
  | netError
  /-- any exception raised by `zipfile` extraction. -/
  | zipError
  /-- any exception raised by `kaggle.api.dataset_download_files`. -/
  | apiError
  /-- `FileNotFoundError` from `Path.unlink()` on a missing file. -/
  | fileNotFound
deriving DecidableEq, Repr

/-- A human-readable rendering of an exception, standing in for the Python
interpolation of the exception text. -/
def PyExn.msg : PyExn → String
  | .osError => "OSError"
  | .importError => "ImportError"
  | .netError => "network error"
  | .zipError => "bad zip file"
  | .apiError => "kaggle api error"
  | .fileNotFound => "file not found"

/-- An attempted external operation, recorded for frame reasoning. -/
inductive Event where
  /-- an HTTP download of `url` was attempted. -/
  | download (url : String)
  /-- extraction of the archive at `zipPath` was attempted. -/
  | extract (zipPath : FPath)
  /-- a Kaggle API download of dataset `id` was attempted. -/
  | kaggleDl (id : String)
deriving DecidableEq, Repr

/-- Oracle fixing the outcome of every external operation in one run. -/
structure World where
  /-- outcome of `import kaggle` (the module import is cached by Python, so
  the outcome is the same at every import site within one run). -/
  imp : ImportOutcome
  /-- whether the HTTP download of a given URL succeeds. -/
  dlOk : String → Bool
  /-- whether extraction of the archive at a given path succeeds. -/
  zipOk : FPath → Bool
  /-- the relative paths of the members of the archive at a given path. -/
  zipEntries : FPath → List FPath
  /-- whether the Kaggle API download of a given dataset id succeeds. -/
  kgOk : String → Bool
  /-- the relative paths of the files a Kaggle download deposits. -/
  kgFiles : String → List FPath

/-- The whole observable program state: filesystem, console output lines,
and the log of attempted external operations. -/
structure St where
  fs : FS
  out : List String
  evs : List Event
deriving DecidableEq, Repr

/-- The effect monad: state passing with Python-style exceptions.  State
mutated before a raise survives the raise. -/
def M (α : Type) : Type :=
  St → Except PyExn α × St

/-- Sequencing in `M`: on an exception the continuation is skipped but the
state is kept. -/
def M.bind {α β : Type} (x : M α) (f : α → M β) : M β := fun s =>
  match x s with
  | (Except.ok a, s1) => f a s1
  | (Except.error e, s1) => (Except.error e, s1)

instance : Monad M where
  pure a := fun s => (Except.ok a, s)
  bind := M.bind

/-- Print one line to the console. -/
def emit (line : String) : M Unit := fun s =>
  (Except.ok (), { s with out := s.out ++ [line] })

/-- Raise a Python exception. -/
def pyRaise {α : Type} (e : PyExn) : M α := fun s =>
  (Except.error e, s)

/-- Read the current filesystem. -/
def getFS : M FS := fun s =>
  (Except.ok s.fs, s)

/-- Mutate the filesystem. -/
def modFS (f : FS → FS) : M Unit := fun s =>
  (Except.ok (), { s with fs := f s.fs })

/-- `try: body except ...: handler`.  The handler receives the exception;
a handler that does not match re-raises inside itself. -/
def pyTry {α : Type} (body : M α) (handler : PyExn → M α) : M α := fun s =>
  match body s with
  | (Except.ok a, s1) => (Except.ok a, s1)
  | (Except.error e, s1) => handler e s1

/-- A statement-level `if cond:` with no `else` (the Python conditional
statement inside a routine body). -/
def whenB (c : Bool) (x : M Unit) : M Unit :=
  if c then x else pure ()

/-- A statement-level `if cond: ... else: ...`. -/
def iteM (c : Bool) (x y : M Unit) : M Unit :=
  if c then x else y

/-- The bar of 70 equal signs printed around headers (the Python
expression is a 70-fold repetition of one character). -/
def bar70 : String :=
  String.mk (List.replicate 70 (Char.ofNat 61))

/-- `print_header(text)`: a blank line, the bar, the text (the `center(70)`
padding is not modelled), the bar, a blank line. -/
def print_header (text : String) : M Unit := do
  emit ""
  emit bar70
  emit text
  emit bar70
  emit ""

/-- `print_success`. -/
def print_success (text : String) : M Unit :=
  emit ("[OK] " ++ text)

/-- `print_info`. -/
def print_info (text : String) : M Unit :=
  emit ("[INFO] " ++ text)

/-- `print_warning`. -/
def print_warning (text : String) : M Unit :=
  emit ("[WARNING] " ++ text)

/-- `print_error`. -/
def print_error (text : String) : M Unit :=
  emit ("[ERROR] " ++ text)

/-- `urllib.request.urlretrieve(url, destination, reporthook)`: records the
download attempt; on success writes the file at `destination`, on failure
raises.  The progress report hook writes no complete line and is not
modelled. -/
def urlretrieve (w : World) (url : String) (destination : FPath) : M Unit := fun s =>
  let s1 := { s with evs := s.evs ++ [Event.download url] }
  if w.dlOk url then
    (Except.ok (), { s1 with fs := s1.fs.addFile destination })
  else
    (Except.error PyExn.netError, s1)

/-- `download_file(url, destination, description)`. -/
def download_file (w : World) (url : String) (destination : FPath)
    (description : String) : M Bool := do
  print_info ("Downloading " ++ description ++ "...")
  pyTry
    (do
      urlretrieve w url destination
      emit ""
      print_success ("Downloaded " ++ description)
      pure true)
    (fun e => do
      print_error ("Failed to download " ++ description ++ ": " ++ e.msg)
      pure false)

/-- `zipfile.ZipFile(zip_path).extractall(extract_to)`: records the
extraction attempt; on success writes the archive members under
`extract_to`, on failure raises. -/
def zipExtractall (w : World) (zip_path extract_to : FPath) : M Unit := fun s =>
  let s1 := { s with evs := s.evs ++ [Event.extract zip_path] }
  if w.zipOk zip_path then
    (Except.ok (), { s1 with fs := s1.fs.addFilesUnder extract_to (w.zipEntries zip_path) })
  else
    (Except.error PyExn.zipError, s1)

/-- `extract_zip(zip_path, extract_to, description)`. -/
def extract_zip (w : World) (zip_path extract_to : FPath)
    (description : String) : M Bool := do
  print_info ("Extracting " ++ description ++ "...")
  pyTry
    (do
      zipExtractall w zip_path extract_to
      print_success ("Extracted " ++ description)
      pure true)
    (fun e => do
      print_error ("Failed to extract " ++ description ++ ": " ++ e.msg)
      pure false)

/-- `Path.unlink()`: removes the file, raising `FileNotFoundError` when it
is absent. -/
def unlink (p : FPath) : M Unit := fun s =>
  if p ∈ s.fs.files then
    (Except.ok (), { s with fs := s.fs.removeFile p })
  else
    (Except.error PyExn.fileNotFound, s)

/-- One entry of the `movielens_datasets` table in `setup_movielens`. -/
structure MLItem where
  name : String
  url : String
  filename : String
  extract_dir : String
deriving DecidableEq, Repr

/-- The MovieLens 1M table entry. -/
def ml1m : MLItem :=
  { name := "MovieLens 1M",
    url := "https://files.grouplens.org/datasets/movielens/ml-1m.zip",
    filename := "ml-1m.zip",
    extract_dir := "ml-1m" }

/-- The MovieLens 25M table entry. -/
def ml25m : MLItem :=
  { name := "MovieLens 25M",
    url := "https://files.grouplens.org/datasets/movielens/ml-25m.zip",
    filename := "ml-25m.zip",
    extract_dir := "ml-25m" }

/-- `datasets/MovieLens`, the `datasets_dir` of `setup_movielens`. -/
def movielensDir : FPath := ["datasets", "MovieLens"]

/-- The body of the `for dataset in movielens_datasets` loop in
`setup_movielens` (a `continue` becomes falling through to the next
item). -/
def setupMovielensItem (w : World) (dataset : MLItem) : M Unit := do
  let extract_path := movielensDir ++ [dataset.extract_dir]
  let fs ← getFS
  if fs.pathExists extract_path && fs.nonemptyDir extract_path then
    print_warning (dataset.name ++ " already exists. Skipping...")
  else
    let zip_path := movielensDir ++ [dataset.filename]
    let dlOk ← download_file w dataset.url zip_path dataset.name
    if !dlOk then
      pure ()
    else
      let exOk ← extract_zip w zip_path movielensDir dataset.name
      if exOk then do
        unlink zip_path
        print_success (dataset.name ++ " setup complete")
      else
        pure ()

/-- `setup_movielens()`. -/
def setup_movielens (w : World) : M Unit := do
  print_header "MovieLens Datasets"
  modFS (fun fs => fs.mkdirParents movielensDir)
  setupMovielensItem w ml1m
  setupMovielensItem w ml25m

/-- `import kaggle`: raises according to the import outcome of the run. -/
def importKaggle (w : World) : M Unit :=
  match w.imp with
  | ImportOutcome.ok => pure ()
  | ImportOutcome.credsMissing => pyRaise PyExn.osError
  | ImportOutcome.notInstalled => pyRaise PyExn.importError

/-- `check_kaggle_api()`: only `OSError` and `ImportError` are caught; any
other exception propagates. -/
def check_kaggle_api (w : World) : M Bool :=
  pyTry
    (do
      importKaggle w
      print_success "Kaggle API is configured"
      pure true)
    (fun e =>
      match e with
      | PyExn.osError => do
          print_error "Kaggle API credentials not found"
          pure false
      | PyExn.importError => do
          print_error "Kaggle package not installed"
          pure false
      | e => pyRaise e)

/-- `check_dataset_exists(path, dataset_name)`. -/
def check_dataset_exists (path : FPath) (dataset_name : String) : M Bool := do
  let fs ← getFS
  if fs.pathExists path && fs.nonemptyDir path then do
    print_success (dataset_name ++ ": Already exists")
    pure true
  else
    pure false

/-- `kaggle.api.dataset_download_files(dataset_id, path, unzip=True)`:
records the attempt; on success deposits the dataset files under `path`,
on failure raises. -/
def kaggleDatasetDownloadFiles (w : World) (dataset_id : String) (path : FPath) : M Unit := fun s =>
  let s1 := { s with evs := s.evs ++ [Event.kaggleDl dataset_id] }
  if w.kgOk dataset_id then
    (Except.ok (), { s1 with fs := s1.fs.addFilesUnder path (w.kgFiles dataset_id) })
  else
    (Except.error PyExn.apiError, s1)

/-- `setup_kaggle_dataset(dataset_id, extract_to, dataset_name)`. -/
def setup_kaggle_dataset (w : World) (dataset_id : String) (extract_to : FPath)
    (dataset_name : String) : M Bool :=
  pyTry
    (do
      importKaggle w
      modFS (fun fs => fs.mkdirParents extract_to)
      print_info ("Downloading " ++ dataset_name ++ " from Kaggle...")
      kaggleDatasetDownloadFiles w dataset_id extract_to
      print_success (dataset_name ++ " downloaded and extracted")
      pure true)
    (fun e => do
      print_error ("Failed to download " ++ dataset_name ++ ": " ++ e.msg)
      pure false)

/-- `datasets/Netflix/netflix`. -/
def netflixDir : FPath := ["datasets", "Netflix", "netflix"]

/-- `datasets/Netflix/netflix_prize`. -/
def netflixPrizeDir : FPath := ["datasets", "Netflix", "netflix_prize"]

/-- `setup_netflix_datasets(has_kaggle)` (early `return`s become nested
branches). -/
def setup_netflix_datasets (w : World) (has_kaggle : Bool) : M Unit := do
  print_header "Netflix Datasets"
  let netflix_shows_exists ← check_dataset_exists netflixDir "Netflix Shows"
  let netflix_prize_exists ← check_dataset_exists netflixPrizeDir "Netflix Prize"
  if netflix_shows_exists && netflix_prize_exists then
    pure ()
  else if !has_kaggle then do
    print_warning "Kaggle API not configured - Manual download required"
    whenB (!netflix_shows_exists) (do
      print_info "Netflix Shows:"
      emit "  1. Go to: https://www.kaggle.com/datasets/shivamb/netflix-shows"
      emit "  2. Click \x27Download\x27 button (requires Kaggle login)"
      emit "  3. Extract netflix_titles.csv to: datasets/Netflix/netflix/"
      emit "")
    whenB (!netflix_prize_exists) (do
      print_info "Netflix Prize:"
      emit "  1. Go to: https://www.kaggle.com/datasets/netflix-inc/netflix-prize-data"
      emit "  2. Click \x27Download\x27 button (requires Kaggle login)"
      emit "  3. Extract all files to: datasets/Netflix/netflix_prize/")
  else do
    whenB (!netflix_shows_exists) (do
      let _ ← setup_kaggle_dataset w "shivamb/netflix-shows" netflixDir "Netflix Shows"
      pure ())
    whenB (!netflix_prize_exists) (do
      let _ ← setup_kaggle_dataset w "netflix-inc/netflix-prize-data" netflixPrizeDir
        "Netflix Prize"
      pure ())

/-- `datasets/TMDB`. -/
def tmdbDir : FPath := ["datasets", "TMDB"]

/-- `setup_tmdb_dataset(has_kaggle)`. -/
def setup_tmdb_dataset (w : World) (has_kaggle : Bool) : M Unit := do
  print_header "TMDB Dataset"
  let tmdbExists ← check_dataset_exists tmdbDir "TMDB Movies"
  if tmdbExists then
    pure ()
  else if !has_kaggle then do
    print_warning "Kaggle API not configured - Manual download required"
    print_info "TMDB Movies:"
    emit "  1. Go to: https://www.kaggle.com/datasets/asaniczka/tmdb-movies-dataset-2023-930k-movies"
    emit "  2. Click \x27Download\x27 button (requires Kaggle login)"
    emit "  3. Extract TMDB_movie_dataset_v11.csv to: datasets/TMDB/"
  else do
    let _ ← setup_kaggle_dataset w "asaniczka/tmdb-movies-dataset-2023-930k-movies" tmdbDir
      "TMDB Movies"
    pure ()

/-- `datasets/anime`. -/
def animeDir : FPath := ["datasets", "anime"]

/-- `setup_anime_dataset(has_kaggle)`. -/
def setup_anime_dataset (w : World) (has_kaggle : Bool) : M Unit := do
  print_header "MyAnimeList Dataset"
  let animeExists ← check_dataset_exists animeDir "MyAnimeList"
  if animeExists then
    pure ()
  else if !has_kaggle then do
    print_warning "Kaggle API not configured - Manual download required"
    print_info "MyAnimeList:"
    emit "  1. Go to: https://www.kaggle.com/datasets/hernan4444/anime-recommendation-database-2020"
    emit "  2. Click \x27Download\x27 button (requires Kaggle login)"
    emit "  3. Extract all CSV files to: datasets/anime/"
  else do
    let _ ← setup_kaggle_dataset w "hernan4444/anime-recommendation-database-2020" animeDir
      "MyAnimeList"
    pure ()

/-- The `required_files` table of `verify_datasets`. -/
def required_files : List (String × FPath) :=
  [("MovieLens 1M", ["datasets", "MovieLens", "ml-1m", "ratings.dat"]),
   ("MovieLens 25M", ["datasets", "MovieLens", "ml-25m", "ratings.csv"]),
   ("Netflix Shows", ["datasets", "Netflix", "netflix", "netflix_titles.csv"]),
   ("Netflix Prize", ["datasets", "Netflix", "netflix_prize"]),
   ("TMDB", ["datasets", "TMDB", "TMDB_movie_dataset_v11.csv"]),
   ("MyAnimeList", ["datasets", "anime", "anime.csv"])]

/-- The `for name, path in required_files.items()` loop of
`verify_datasets`, with `all_present` as the accumulator. -/
def verifyLoop : List (String × FPath) → Bool → M Bool
  | [], all_present => pure all_present
  | (name, path) :: rest, all_present => do
    let fs ← getFS
    if fs.pathExists path then do
      print_success (name ++ ": Found")
      verifyLoop rest all_present
    else do
      print_error (name ++ ": Missing")
      verifyLoop rest false

/-- `verify_datasets()`. -/
def verify_datasets : M Bool := do
  print_header "Verification"
  verifyLoop required_files true

/-- `print_kaggle_setup_instructions()`. -/
def print_kaggle_setup_instructions : M Unit := do
  print_header "Kaggle API Setup (Optional)"
  emit "To enable automatic downloads from Kaggle:"
  emit ""
  emit "1. Create a Kaggle account at https://www.kaggle.com"
  emit "2. Go to your Account Settings (click on profile picture)"
  emit "3. Scroll to \x27API\x27 section"
  emit "4. Click \x27Create New API Token\x27"
  emit "5. This downloads kaggle.json file"
  emit "6. Place kaggle.json in:"
  emit "   - Windows: C:\\Users\\<YourUsername>\\.kaggle\\kaggle.json"
  emit "   - Linux/Mac: ~/.kaggle/kaggle.json"
  emit "7. Install kaggle package: pip install kaggle"
  emit ""
  print_info "Alternatively, you can download datasets manually (see instructions above)"
  emit ""

/-- `main()` (named `mainSetup` here since `main` is reserved). -/
def mainSetup (w : World) : M Unit := do
  print_header "Movie Recommendation Systems - Dataset Setup"
  emit "This script will download and setup all required datasets."
  emit ""
  modFS (fun fs => fs.mkdirParents ["datasets"])
  let has_kaggle ← check_kaggle_api w
  whenB (!has_kaggle) (do
    emit ""
    print_kaggle_setup_instructions)
  emit ""
  setup_movielens w
  setup_netflix_datasets w has_kaggle
  setup_tmdb_dataset w has_kaggle
  setup_anime_dataset w has_kaggle
  emit ""
  let all_present ← verify_datasets
  print_header "Setup Complete"
  iteM all_present
    (do
      print_success "All datasets are ready!"
      print_info "You can now run the Jupyter notebooks in recommendation_techniques/")
    (do
      print_warning "Some datasets are missing."
      whenB (!has_kaggle) (do
        print_info "For Kaggle datasets, you can:"
        emit "  Option 1: Setup Kaggle API and run this script again"
        emit "  Option 2: Download manually from the URLs shown above")
      print_info "Place downloaded files in the correct folders and run this script again to verify.")
  emit ""

/-- The process exit status of `python setup_datasets.py`: 0 when `main`
returns normally, 1 when an exception escapes it (the Python behaviour for
an uncaught exception; the script never calls `sys.exit`). -/
def processExit (w : World) (s : St) : Nat :=
  match (mainSetup w s).1 with
  | Except.ok _ => 0
  | Except.error _ => 1

/-- `RunsWith x need` : from every start state, `x` returns normally (no
exception reaches the caller) and only appends to the console output, and
the appended lines include every line of `need`. -/
def RunsWith {α : Type} (x : M α) (need : List String) : Prop :=
  ∀ s, ∃ a s1, x s = (Except.ok a, s1) ∧ ∃ t, s1.out = s.out ++ t ∧ ∀ l ∈ need, l ∈ t

/-! ### Concrete states and worlds used to instantiate the theorems -/

/-- The empty filesystem. -/
def emptyFS : FS := { files := [], dirs := [] }

/-- A fresh start state: nothing on disk, nothing printed, no events. -/
def st0 : St := { fs := emptyFS, out := [], evs := [] }

/-- A world where every external operation succeeds. -/
def wBase : World :=
  { imp := ImportOutcome.ok,
    dlOk := fun _ => true,
    zipOk := fun _ => true,
    zipEntries := fun _ => [],
    kgOk := fun _ => true,
    kgFiles := fun _ => [] }

/-- A world where downloads succeed but every archive is corrupt. -/
def wZipFails : World := { wBase with zipOk := fun _ => false }

/-- A world where the Kaggle API is importable and configured but every
Kaggle download call fails. -/
def wKgFails : World := { wBase with kgOk := fun _ => false }

/-- A world where the kaggle package is not installed. -/
def wNoPkg : World := { wBase with imp := ImportOutcome.notInstalled }

/-- A filesystem with every dataset destination populated. -/
def fsPop : FS :=
  { files := [["datasets", "MovieLens", "ml-1m", "ratings.dat"],
      ["datasets", "MovieLens", "ml-25m", "ratings.csv"],
      ["datasets", "Netflix", "netflix", "netflix_titles.csv"],
      ["datasets", "Netflix", "netflix_prize", "combined_data_1.txt"],
      ["datasets", "TMDB", "TMDB_movie_dataset_v11.csv"],
      ["datasets", "anime", "anime.csv"]],
    dirs := [["datasets"], ["datasets", "MovieLens"], ["datasets", "MovieLens", "ml-1m"],
      ["datasets", "MovieLens", "ml-25m"], ["datasets", "Netflix"],
      ["datasets", "Netflix", "netflix"], ["datasets", "Netflix", "netflix_prize"],
      ["datasets", "TMDB"], ["datasets", "anime"]] }

/-- A start state with every destination populated. -/
def stPop : St := { fs := fsPop, out := [], evs := [] }

/-- A filesystem where `datasets/MovieLens/ml-1m` exists but is empty. -/
def fsEmptyML : FS :=
  { files := [],
    dirs := [["datasets"], ["datasets", "MovieLens"], ["datasets", "MovieLens", "ml-1m"]] }

/-- A start state with an existing empty `ml-1m` directory. -/
def stEmptyML : St := { fs := fsEmptyML, out := [], evs := [] }

/-- A filesystem where `datasets/Netflix/netflix_prize` exists but is
empty, and nothing else exists. -/
def fsPrizeDir : FS :=
  { files := [],
    dirs := [["datasets"], ["datasets", "Netflix"], ["datasets", "Netflix", "netflix_prize"]] }

/-- A start state with an existing empty Netflix Prize directory. -/
def stPrizeDir : St := { fs := fsPrizeDir, out := [], evs := [] }

/-- A filesystem where only the Netflix Shows destination is populated. -/
def fsShows : FS :=
  { files := [["datasets", "Netflix", "netflix", "netflix_titles.csv"]],
    dirs := [["datasets"], ["datasets", "Netflix"], ["datasets", "Netflix", "netflix"]] }

/-- A start state with only Netflix Shows populated. -/
def stShows : St := { fs := fsShows, out := [], evs := [] }

/-- A filesystem where only the Netflix Prize destination is populated. -/
def fsPrizePop : FS :=
  { files := [["datasets", "Netflix", "netflix_prize", "combined_data_1.txt"]],
    dirs := [["datasets"], ["datasets", "Netflix"], ["datasets", "Netflix", "netflix_prize"]] }

/-- A start state with only Netflix Prize populated. -/
def stPrizePop : St := { fs := fsPrizePop, out := [], evs := [] }

/-! ### Evaluation lemmas for the monad primitives -/

theorem run_bind {α β : Type} (x : M α) (f : α → M β) (s : St) :
    (x >>= f) s =
      match x s with
      | (Except.ok a, s1) => f a s1
      | (Except.error e, s1) => (Except.error e, s1) := rfl

theorem run_pure {α : Type} (a : α) (s : St) :
    (pure a : M α) s = (Except.ok a, s) := rfl

theorem run_whenB (c : Bool) (x : M Unit) (s : St) :
    whenB c x s = if c then x s else (Except.ok (), s) := by
  unfold whenB
  split <;> rfl

theorem run_iteM (c : Bool) (x y : M Unit) (s : St) :
    iteM c x y s = if c then x s else y s := by
  unfold iteM
  split <;> rfl

theorem run_emit (l : String) (s : St) :
    emit l s = (Except.ok (), { s with out := s.out ++ [l] }) := rfl

theorem run_getFS (s : St) : getFS s = (Except.ok s.fs, s) := rfl

theorem run_modFS (f : FS → FS) (s : St) :
    modFS f s = (Except.ok (), { s with fs := f s.fs }) := rfl

theorem run_pyRaise {α : Type} (e : PyExn) (s : St) :
    (pyRaise e : M α) s = (Except.error e, s) := rfl

theorem run_pyTry {α : Type} (x : M α) (h : PyExn → M α) (s : St) :
    pyTry x h s =
      match x s with
      | (Except.ok a, s1) => (Except.ok a, s1)
      | (Except.error e, s1) => h e s1 := rfl

theorem run_ite {α : Type} (c : Prop) [Decidable c] (x y : M α) (s : St) :
    (if c then x else y) s = if c then x s else y s := by
  split <;> rfl

/-! ### Small facts about the filesystem model -/

theorem mem_addFile_self (fs : FS) (p : FPath) : p ∈ (fs.addFile p).files := by
  unfold FS.addFile
  split
  · assumption
  · simp

theorem mem_addFile_mono (fs : FS) (p q : FPath) (h : p ∈ fs.files) :
    p ∈ (fs.addFile q).files := by
  unfold FS.addFile
  split
  · exact h
  · simp [h]

theorem mem_addFilesUnder_mono (rels : List FPath) (fs : FS) (base p : FPath)
    (h : p ∈ fs.files) : p ∈ (fs.addFilesUnder base rels).files := by
  induction rels generalizing fs with
  | nil => exact h
  | cons r rest ih =>
      exact ih (fs.addFile (base ++ r)) (mem_addFile_mono fs p (base ++ r) h)

theorem not_mem_removeFile_self (fs : FS) (p : FPath) :
    p ∉ (fs.removeFile p).files := by
  unfold FS.removeFile
  simp

theorem addFile_files_subset (fs : FS) (p q : FPath) (h : q ∈ (fs.addFile p).files) :
    q ∈ fs.files ∨ q = p := by
  unfold FS.addFile at h
  split at h
  · exact Or.inl h
  · rcases List.mem_append.mp h with h1 | h1
    · exact Or.inl h1
    · exact Or.inr (List.mem_singleton.mp h1)

theorem addFilesUnder_files_subset (rels : List FPath) (fs : FS) (base q : FPath)
    (h : q ∈ (fs.addFilesUnder base rels).files) :
    q ∈ fs.files ∨ ∃ r ∈ rels, q = base ++ r := by
  induction rels generalizing fs with
  | nil => exact Or.inl h
  | cons r rest ih =>
      rcases ih (fs.addFile (base ++ r)) h with h1 | ⟨r1, hr1, hq⟩
      · rcases addFile_files_subset fs (base ++ r) q h1 with h2 | h2
        · exact Or.inl h2
        · exact Or.inr ⟨r, by simp, h2⟩
      · exact Or.inr ⟨r1, by simp [hr1], hq⟩

theorem mem_foldlAddDirs_mono (l : List FPath) (ds : List FPath) (d : FPath)
    (h : d ∈ ds) :
    d ∈ l.foldl (fun ds d => if d ∈ ds then ds else ds ++ [d]) ds := by
  induction l generalizing ds with
  | nil => exact h
  | cons x xs ih =>
      simp only [List.foldl_cons]
      apply ih
      change d ∈ if x ∈ ds then ds else ds ++ [x]
      split
      · exact h
      · simp [h]

theorem mem_foldlAddDirs_of_mem (l : List FPath) (ds : List FPath) (d : FPath)
    (h : d ∈ l) :
    d ∈ l.foldl (fun ds d => if d ∈ ds then ds else ds ++ [d]) ds := by
  induction l generalizing ds with
  | nil => simp at h
  | cons x xs ih =>
      rcases List.mem_cons.mp h with h1 | h1
      · subst h1
        simp only [List.foldl_cons]
        apply mem_foldlAddDirs_mono
        change d ∈ if d ∈ ds then ds else ds ++ [d]
        split
        · assumption
        · simp
      · simp only [List.foldl_cons]
        exact ih _ h1

theorem foldlAddDirs_subset (l : List FPath) (ds : List FPath) (d : FPath)
    (h : d ∈ l.foldl (fun ds d => if d ∈ ds then ds else ds ++ [d]) ds) :
    d ∈ ds ∨ d ∈ l := by
  induction l generalizing ds with
  | nil => exact Or.inl h
  | cons x xs ih =>
      simp only [List.foldl_cons] at h
      rcases ih _ h with h1 | h1
      · change d ∈ if x ∈ ds then ds else ds ++ [x] at h1
        split at h1
        · exact Or.inl h1
        · rcases List.mem_append.mp h1 with h2 | h2
          · exact Or.inl h2
          · exact Or.inr (by simp [List.mem_singleton.mp h2])
      · exact Or.inr (by simp [h1])

theorem mem_ancestorsFrom_self (l : List String) (acc : FPath) (h : l ≠ []) :
    acc ++ l ∈ ancestorsFrom acc l := by
  induction l generalizing acc with
  | nil => exact absurd rfl h
  | cons x xs ih =>
      unfold ancestorsFrom
      by_cases hx : xs = []
      · subst hx
        simp
      · have h2 := ih (acc ++ [x]) hx
        have h3 : acc ++ x :: xs = (acc ++ [x]) ++ xs := by simp
        rw [List.mem_cons]
        right
        rw [h3]
        exact h2

theorem mem_ancestors_self (p : FPath) (h : p ≠ []) : p ∈ ancestors p := by
  have := mem_ancestorsFrom_self p [] h
  simpa [ancestors] using this

theorem mem_mkdirParents_self (fs : FS) (p : FPath) (h : p ≠ []) :
    p ∈ (fs.mkdirParents p).dirs := by
  unfold FS.mkdirParents
  exact mem_foldlAddDirs_of_mem _ _ _ (mem_ancestors_self p h)

theorem mkdirParents_files (fs : FS) (p : FPath) :
    (fs.mkdirParents p).files = fs.files := rfl

theorem mkdirParents_dirs_subset (fs : FS) (p d : FPath)
    (h : d ∈ (fs.mkdirParents p).dirs) : d ∈ fs.dirs ∨ d ∈ ancestors p := by
  unfold FS.mkdirParents at h
  exact foldlAddDirs_subset _ _ _ h

/-! ### Evaluation lemmas for unlink and the leaf routines -/

theorem run_unlink (p : FPath) (s : St) :
    unlink p s =
      if p ∈ s.fs.files then (Except.ok (), { s with fs := s.fs.removeFile p })
      else (Except.error PyExn.fileNotFound, s) := rfl

theorem run_print_header (t : String) (s : St) :
    print_header t s = (Except.ok (), { s with out := s.out ++ ["", bar70, t, bar70, ""] }) := by
  simp [print_header, run_bind, run_emit]

theorem run_check_kaggle_api (w : World) (s : St) :
    check_kaggle_api w s =
      (Except.ok (decide (w.imp = ImportOutcome.ok)),
       { s with out := s.out ++
           [match w.imp with
            | ImportOutcome.ok => "[OK] " ++ "Kaggle API is configured"
            | ImportOutcome.credsMissing => "[ERROR] " ++ "Kaggle API credentials not found"
            | ImportOutcome.notInstalled => "[ERROR] " ++ "Kaggle package not installed"] }) := by
  cases himp : w.imp <;>
    simp [check_kaggle_api, importKaggle, run_pyTry, run_bind, run_emit, run_pure,
      run_pyRaise, print_success, print_error, himp]

theorem run_check_dataset_exists (p : FPath) (n : String) (s : St) :
    check_dataset_exists p n s =
      if (s.fs.pathExists p && s.fs.nonemptyDir p) = true then
        (Except.ok true, { s with out := s.out ++ ["[OK] " ++ (n ++ ": Already exists")] })
      else (Except.ok false, s) := by
  simp only [check_dataset_exists, run_bind, run_getFS, run_ite, run_emit, run_pure,
    print_success]

theorem run_download_file (w : World) (url : String) (dest : FPath) (d : String) (s : St) :
    download_file w url dest d s =
      if w.dlOk url then
        (Except.ok true,
         { fs := s.fs.addFile dest,
           out := s.out ++ ["[INFO] " ++ ("Downloading " ++ d ++ "..."), "",
             "[OK] " ++ ("Downloaded " ++ d)],
           evs := s.evs ++ [Event.download url] })
      else
        (Except.ok false,
         { fs := s.fs,
           out := s.out ++ ["[INFO] " ++ ("Downloading " ++ d ++ "..."),
             "[ERROR] " ++ ("Failed to download " ++ d ++ ": " ++ PyExn.msg PyExn.netError)],
           evs := s.evs ++ [Event.download url] }) := by
  cases hdl : w.dlOk url <;>
    simp [download_file, run_bind, run_emit, run_pure, run_pyTry, print_info,
      print_success, print_error, urlretrieve, hdl]

theorem run_extract_zip (w : World) (zp et : FPath) (d : String) (s : St) :
    extract_zip w zp et d s =
      if w.zipOk zp then
        (Except.ok true,
         { fs := s.fs.addFilesUnder et (w.zipEntries zp),
           out := s.out ++ ["[INFO] " ++ ("Extracting " ++ d ++ "..."),
             "[OK] " ++ ("Extracted " ++ d)],
           evs := s.evs ++ [Event.extract zp] })
      else
        (Except.ok false,
         { fs := s.fs,
           out := s.out ++ ["[INFO] " ++ ("Extracting " ++ d ++ "..."),
             "[ERROR] " ++ ("Failed to extract " ++ d ++ ": " ++ PyExn.msg PyExn.zipError)],
           evs := s.evs ++ [Event.extract zp] }) := by
  cases hz : w.zipOk zp <;>
    simp [extract_zip, run_bind, run_emit, run_pure, run_pyTry, print_info,
      print_success, print_error, zipExtractall, hz]

theorem run_setup_kaggle_dataset (w : World) (id : String) (dest : FPath) (n : String)
    (s : St) :
    setup_kaggle_dataset w id dest n s =
      match w.imp with
      | ImportOutcome.ok =>
          if w.kgOk id then
            (Except.ok true,
             { fs := (s.fs.mkdirParents dest).addFilesUnder dest (w.kgFiles id),
               out := s.out ++ ["[INFO] " ++ ("Downloading " ++ n ++ " from Kaggle..."),
                 "[OK] " ++ (n ++ " downloaded and extracted")],
               evs := s.evs ++ [Event.kaggleDl id] })
          else
            (Except.ok false,
             { fs := s.fs.mkdirParents dest,
               out := s.out ++ ["[INFO] " ++ ("Downloading " ++ n ++ " from Kaggle..."),
                 "[ERROR] " ++ ("Failed to download " ++ n ++ ": " ++ PyExn.msg PyExn.apiError)],
               evs := s.evs ++ [Event.kaggleDl id] })
      | ImportOutcome.credsMissing =>
          (Except.ok false,
           { s with out := s.out ++
               ["[ERROR] " ++ ("Failed to download " ++ n ++ ": " ++ PyExn.msg PyExn.osError)] })
      | ImportOutcome.notInstalled =>
          (Except.ok false,
           { s with out := s.out ++
               ["[ERROR] " ++ ("Failed to download " ++ n ++ ": " ++ PyExn.msg PyExn.importError)] }) := by
  cases himp : w.imp
  · cases hk : w.kgOk id <;>
      simp [setup_kaggle_dataset, importKaggle, kaggleDatasetDownloadFiles, run_pyTry,
        run_bind, run_emit, run_pure, run_pyRaise, run_modFS, print_info, print_success,
        print_error, himp, hk]
  · simp [setup_kaggle_dataset, importKaggle, run_pyTry, run_bind, run_emit, run_pure,
      run_pyRaise, print_info, print_error, himp]
  · simp [setup_kaggle_dataset, importKaggle, run_pyTry, run_bind, run_emit, run_pure,
      run_pyRaise, print_info, print_error, himp]

/-! ### Branch equations for the MovieLens per-item loop body -/

theorem run_setupMovielensItem_skip (w : World) (d : MLItem) (s : St)
    (h : (s.fs.pathExists (movielensDir ++ [d.extract_dir]) &&
          s.fs.nonemptyDir (movielensDir ++ [d.extract_dir])) = true) :
    setupMovielensItem w d s =
      (Except.ok (),
       { s with out := s.out ++ ["[WARNING] " ++ (d.name ++ " already exists. Skipping...")] }) := by
  rw [Bool.and_eq_true] at h
  simp [setupMovielensItem, run_bind, run_getFS, run_emit, run_pure, run_ite,
    print_warning, h.1, h.2]

theorem run_setupMovielensItem_dlFail (w : World) (d : MLItem) (s : St)
    (h : (s.fs.pathExists (movielensDir ++ [d.extract_dir]) &&
          s.fs.nonemptyDir (movielensDir ++ [d.extract_dir])) = false)
    (hdl : w.dlOk d.url = false) :
    setupMovielensItem w d s =
      (Except.ok (),
       { fs := s.fs,
         out := s.out ++ ["[INFO] " ++ ("Downloading " ++ d.name ++ "..."),
           "[ERROR] " ++ ("Failed to download " ++ d.name ++ ": " ++ PyExn.msg PyExn.netError)],
         evs := s.evs ++ [Event.download d.url] }) := by
  have h2 : ¬(s.fs.pathExists (movielensDir ++ [d.extract_dir]) = true ∧
      s.fs.nonemptyDir (movielensDir ++ [d.extract_dir]) = true) := by
    rw [← Bool.and_eq_true, h]
    simp
  simp [setupMovielensItem, run_bind, run_getFS, run_pure, run_ite, h2,
    run_download_file, hdl]

theorem run_setupMovielensItem_zipFail (w : World) (d : MLItem) (s : St)
    (h : (s.fs.pathExists (movielensDir ++ [d.extract_dir]) &&
          s.fs.nonemptyDir (movielensDir ++ [d.extract_dir])) = false)
    (hdl : w.dlOk d.url = true)
    (hz : w.zipOk (movielensDir ++ [d.filename]) = false) :
    setupMovielensItem w d s =
      (Except.ok (),
       { fs := s.fs.addFile (movielensDir ++ [d.filename]),
         out := s.out ++ ["[INFO] " ++ ("Downloading " ++ d.name ++ "..."), "",
           "[OK] " ++ ("Downloaded " ++ d.name),
           "[INFO] " ++ ("Extracting " ++ d.name ++ "..."),
           "[ERROR] " ++ ("Failed to extract " ++ d.name ++ ": " ++ PyExn.msg PyExn.zipError)],
         evs := s.evs ++ [Event.download d.url, Event.extract (movielensDir ++ [d.filename])] }) := by
  have h2 : ¬(s.fs.pathExists (movielensDir ++ [d.extract_dir]) = true ∧
      s.fs.nonemptyDir (movielensDir ++ [d.extract_dir]) = true) := by
    rw [← Bool.and_eq_true, h]
    simp
  simp [setupMovielensItem, run_bind, run_getFS, run_pure, run_ite, h2,
    run_download_file, hdl, run_extract_zip, hz]

theorem run_setupMovielensItem_success (w : World) (d : MLItem) (s : St)
    (h : (s.fs.pathExists (movielensDir ++ [d.extract_dir]) &&
          s.fs.nonemptyDir (movielensDir ++ [d.extract_dir])) = false)
    (hdl : w.dlOk d.url = true)
    (hz : w.zipOk (movielensDir ++ [d.filename]) = true) :
    setupMovielensItem w d s =
      (Except.ok (),
       { fs := ((s.fs.addFile (movielensDir ++ [d.filename])).addFilesUnder movielensDir
           (w.zipEntries (movielensDir ++ [d.filename]))).removeFile (movielensDir ++ [d.filename]),
         out := s.out ++ ["[INFO] " ++ ("Downloading " ++ d.name ++ "..."), "",
           "[OK] " ++ ("Downloaded " ++ d.name),
           "[INFO] " ++ ("Extracting " ++ d.name ++ "..."),
           "[OK] " ++ ("Extracted " ++ d.name),
           "[OK] " ++ (d.name ++ " setup complete")],
         evs := s.evs ++ [Event.download d.url, Event.extract (movielensDir ++ [d.filename])] }) := by
  have h2 : ¬(s.fs.pathExists (movielensDir ++ [d.extract_dir]) = true ∧
      s.fs.nonemptyDir (movielensDir ++ [d.extract_dir]) = true) := by
    rw [← Bool.and_eq_true, h]
    simp
  have hmem : movielensDir ++ [d.filename] ∈
      ((s.fs.addFile (movielensDir ++ [d.filename])).addFilesUnder movielensDir
        (w.zipEntries (movielensDir ++ [d.filename]))).files :=
    mem_addFilesUnder_mono _ _ _ _ (mem_addFile_self _ _)
  simp [setupMovielensItem, run_bind, run_getFS, run_pure, run_ite, run_emit, h2,
    run_download_file, hdl, run_extract_zip, hz, run_unlink, hmem, print_success]

/-! ### The verification pass -/

theorem run_verifyLoop (l : List (String × FPath)) (acc : Bool) (s : St) :
    verifyLoop l acc s =
      (Except.ok (acc && l.all (fun e => s.fs.pathExists e.2)),
       { s with out := s.out ++ l.map (fun e =>
           if s.fs.pathExists e.2 then "[OK] " ++ (e.1 ++ ": Found")
           else "[ERROR] " ++ (e.1 ++ ": Missing")) }) := by
  induction l generalizing acc s with
  | nil => simp [verifyLoop, run_pure]
  | cons e rest ih =>
      obtain ⟨name, path⟩ := e
      by_cases hp : s.fs.pathExists path = true
      · simp [verifyLoop, run_bind, run_getFS, run_ite, run_emit, run_pure,
          print_success, print_error, hp, ih]
      · simp only [Bool.not_eq_true] at hp
        simp [verifyLoop, run_bind, run_getFS, run_ite, run_emit, run_pure,
          print_success, print_error, hp, ih]

theorem run_verify_datasets (s : St) :
    verify_datasets s =
      (Except.ok (required_files.all (fun e => s.fs.pathExists e.2)),
       { s with out := s.out ++ (["", bar70, "Verification", bar70, ""] ++
           required_files.map (fun e =>
             if s.fs.pathExists e.2 then "[OK] " ++ (e.1 ++ ": Found")
             else "[ERROR] " ++ (e.1 ++ ": Missing"))) }) := by
  simp [verify_datasets, run_bind, run_print_header, run_verifyLoop]

/-! ### A compositional safety predicate -/

theorem RunsWith.bindNil {α β : Type} {x : M α} {f : α → M β} {n : List String}
    (hx : RunsWith x []) (hf : ∀ a, RunsWith (f a) n) : RunsWith (x >>= f) n := by
  intro s
  obtain ⟨a, s1, hx1, t1, ht1, -⟩ := hx s
  obtain ⟨b, s2, hf1, t2, ht2, hn2⟩ := hf a s1
  refine ⟨b, s2, ?_, t1 ++ t2, ?_, ?_⟩
  · rw [run_bind, hx1]
    exact hf1
  · rw [ht2, ht1, List.append_assoc]
  · intro l hl
    exact List.mem_append.mpr (Or.inr (hn2 l hl))

theorem RunsWith.bindCons {α β : Type} {x : M α} {f : α → M β} {l0 : String}
    {n : List String} (hx : RunsWith x [l0]) (hf : ∀ a, RunsWith (f a) n) :
    RunsWith (x >>= f) (l0 :: n) := by
  intro s
  obtain ⟨a, s1, hx1, t1, ht1, hn1⟩ := hx s
  obtain ⟨b, s2, hf1, t2, ht2, hn2⟩ := hf a s1
  refine ⟨b, s2, ?_, t1 ++ t2, ?_, ?_⟩
  · rw [run_bind, hx1]
    exact hf1
  · rw [ht2, ht1, List.append_assoc]
  · intro l hl
    rcases List.mem_cons.mp hl with h | h
    · exact List.mem_append.mpr (Or.inl (hn1 l (by simp [h])))
    · exact List.mem_append.mpr (Or.inr (hn2 l h))

theorem RunsWith.ite {α : Type} {c : Prop} [Decidable c] {x y : M α} {n : List String}
    (hx : RunsWith x n) (hy : RunsWith y n) : RunsWith (if c then x else y) n := by
  split
  · exact hx
  · exact hy

theorem runsWith_pure {α : Type} (a : α) : RunsWith (pure a : M α) [] := by
  intro s
  exact ⟨a, s, rfl, [], by simp, by simp⟩

theorem runsWith_whenB {x : M Unit} (c : Bool) (h : RunsWith x []) :
    RunsWith (whenB c x) [] := by
  unfold whenB
  split
  · exact h
  · exact runsWith_pure ()

theorem runsWith_iteM {x y : M Unit} (c : Bool) (hx : RunsWith x [])
    (hy : RunsWith y []) : RunsWith (iteM c x y) [] := by
  unfold iteM
  split
  · exact hx
  · exact hy

theorem runsWith_emit (l : String) : RunsWith (emit l) [] := by
  intro s
  exact ⟨(), _, rfl, [l], rfl, by simp⟩

theorem runsWith_modFS (f : FS → FS) : RunsWith (modFS f) [] := by
  intro s
  exact ⟨(), _, rfl, [], by simp, by simp⟩

theorem runsWith_getFS : RunsWith getFS [] := by
  intro s
  exact ⟨s.fs, s, rfl, [], by simp, by simp⟩

theorem runsWith_print_success (t : String) : RunsWith (print_success t) [] := by
  intro s
  exact ⟨(), _, rfl, _, rfl, by simp⟩

theorem runsWith_print_info (t : String) : RunsWith (print_info t) [] := by
  intro s
  exact ⟨(), _, rfl, _, rfl, by simp⟩

theorem runsWith_print_warning (t : String) : RunsWith (print_warning t) [] := by
  intro s
  exact ⟨(), _, rfl, _, rfl, by simp⟩

theorem runsWith_print_error (t : String) : RunsWith (print_error t) [] := by
  intro s
  exact ⟨(), _, rfl, _, rfl, by simp⟩

theorem runsWith_print_header (t : String) : RunsWith (print_header t) [t] := by
  intro s
  exact ⟨(), _, run_print_header t s, _, rfl, by simp⟩

theorem runsWith_print_header0 (t : String) : RunsWith (print_header t) [] := by
  intro s
  exact ⟨(), _, run_print_header t s, _, rfl, by simp⟩

theorem runsWith_check_kaggle_api (w : World) : RunsWith (check_kaggle_api w) [] := by
  intro s
  exact ⟨_, _, run_check_kaggle_api w s, _, rfl, by simp⟩

theorem runsWith_check_dataset_exists (p : FPath) (n : String) :
    RunsWith (check_dataset_exists p n) [] := by
  intro s
  rw [run_check_dataset_exists]
  split
  · exact ⟨_, _, rfl, _, rfl, by simp⟩
  · exact ⟨_, _, rfl, [], by simp, by simp⟩

theorem runsWith_setup_kaggle_dataset (w : World) (id : String) (dest : FPath)
    (n : String) : RunsWith (setup_kaggle_dataset w id dest n) [] := by
  intro s
  rw [run_setup_kaggle_dataset]
  cases w.imp
  · by_cases hk : w.kgOk id = true
    · rw [if_pos hk]
      exact ⟨_, _, rfl, _, rfl, by simp⟩
    · rw [if_neg hk]
      exact ⟨_, _, rfl, _, rfl, by simp⟩
  · exact ⟨_, _, rfl, _, rfl, by simp⟩
  · exact ⟨_, _, rfl, _, rfl, by simp⟩

theorem runsWith_setupMovielensItem (w : World) (d : MLItem) :
    RunsWith (setupMovielensItem w d) [] := by
  intro s
  by_cases h : (s.fs.pathExists (movielensDir ++ [d.extract_dir]) &&
      s.fs.nonemptyDir (movielensDir ++ [d.extract_dir])) = true
  · rw [run_setupMovielensItem_skip w d s h]
    exact ⟨_, _, rfl, _, rfl, by simp⟩
  · rw [Bool.not_eq_true] at h
    cases hdl : w.dlOk d.url
    · rw [run_setupMovielensItem_dlFail w d s h hdl]
      exact ⟨_, _, rfl, _, rfl, by simp⟩
    · cases hz : w.zipOk (movielensDir ++ [d.filename])
      · rw [run_setupMovielensItem_zipFail w d s h hdl hz]
        exact ⟨_, _, rfl, _, rfl, by simp⟩
      · rw [run_setupMovielensItem_success w d s h hdl hz]
        exact ⟨_, _, rfl, _, rfl, by simp⟩

theorem runsWith_setup_movielens (w : World) :
    RunsWith (setup_movielens w) ["MovieLens Datasets"] := by
  unfold setup_movielens
  refine RunsWith.bindCons (runsWith_print_header _) fun _ => ?_
  refine RunsWith.bindNil (runsWith_modFS _) fun _ => ?_
  exact RunsWith.bindNil (runsWith_setupMovielensItem w ml1m)
    fun _ => runsWith_setupMovielensItem w ml25m

theorem runsWith_setup_netflix_datasets (w : World) (hk : Bool) :
    RunsWith (setup_netflix_datasets w hk) ["Netflix Datasets"] := by
  unfold setup_netflix_datasets
  refine RunsWith.bindCons (runsWith_print_header _) fun _ => ?_
  refine RunsWith.bindNil (runsWith_check_dataset_exists _ _) fun b1 => ?_
  refine RunsWith.bindNil (runsWith_check_dataset_exists _ _) fun b2 => ?_
  apply RunsWith.ite
  · exact runsWith_pure _
  apply RunsWith.ite
  · refine RunsWith.bindNil (runsWith_print_warning _) fun _ => ?_
    refine RunsWith.bindNil (runsWith_whenB _ ?_) fun _ => ?_
    · refine RunsWith.bindNil (runsWith_print_info _) fun _ => ?_
      refine RunsWith.bindNil (runsWith_emit _) fun _ => ?_
      refine RunsWith.bindNil (runsWith_emit _) fun _ => ?_
      refine RunsWith.bindNil (runsWith_emit _) fun _ => ?_
      exact runsWith_emit _
    · apply runsWith_whenB
      refine RunsWith.bindNil (runsWith_print_info _) fun _ => ?_
      refine RunsWith.bindNil (runsWith_emit _) fun _ => ?_
      refine RunsWith.bindNil (runsWith_emit _) fun _ => ?_
      exact runsWith_emit _
  · refine RunsWith.bindNil (runsWith_whenB _ ?_) fun _ => ?_
    · exact RunsWith.bindNil (runsWith_setup_kaggle_dataset _ _ _ _)
        fun _ => runsWith_pure _
    · apply runsWith_whenB
      exact RunsWith.bindNil (runsWith_setup_kaggle_dataset _ _ _ _)
        fun _ => runsWith_pure _

theorem runsWith_setup_tmdb_dataset (w : World) (hk : Bool) :
    RunsWith (setup_tmdb_dataset w hk) ["TMDB Dataset"] := by
  unfold setup_tmdb_dataset
  refine RunsWith.bindCons (runsWith_print_header _) fun _ => ?_
  refine RunsWith.bindNil (runsWith_check_dataset_exists _ _) fun b1 => ?_
  apply RunsWith.ite
  · exact runsWith_pure _
  apply RunsWith.ite
  · refine RunsWith.bindNil (runsWith_print_warning _) fun _ => ?_
    refine RunsWith.bindNil (runsWith_print_info _) fun _ => ?_
    refine RunsWith.bindNil (runsWith_emit _) fun _ => ?_
    refine RunsWith.bindNil (runsWith_emit _) fun _ => ?_
    exact runsWith_emit _
  · exact RunsWith.bindNil (runsWith_setup_kaggle_dataset _ _ _ _)
      fun _ => runsWith_pure _

theorem runsWith_setup_anime_dataset (w : World) (hk : Bool) :
    RunsWith (setup_anime_dataset w hk) ["MyAnimeList Dataset"] := by
  unfold setup_anime_dataset
  refine RunsWith.bindCons (runsWith_print_header _) fun _ => ?_
  refine RunsWith.bindNil (runsWith_check_dataset_exists _ _) fun b1 => ?_
  apply RunsWith.ite
  · exact runsWith_pure _
  apply RunsWith.ite
  · refine RunsWith.bindNil (runsWith_print_warning _) fun _ => ?_
    refine RunsWith.bindNil (runsWith_print_info _) fun _ => ?_
    refine RunsWith.bindNil (runsWith_emit _) fun _ => ?_
    refine RunsWith.bindNil (runsWith_emit _) fun _ => ?_
    exact runsWith_emit _
  · exact RunsWith.bindNil (runsWith_setup_kaggle_dataset _ _ _ _)
      fun _ => runsWith_pure _

theorem runsWith_verify_datasets : RunsWith verify_datasets ["Verification"] := by
  intro s
  exact ⟨_, _, run_verify_datasets s, _, rfl, by simp⟩

theorem runsWith_print_kaggle_setup_instructions :
    RunsWith print_kaggle_setup_instructions [] := by
  unfold print_kaggle_setup_instructions
  refine RunsWith.bindNil (runsWith_print_header0 _) fun _ => ?_
  refine RunsWith.bindNil (runsWith_emit _) fun _ => ?_
  refine RunsWith.bindNil (runsWith_emit _) fun _ => ?_
  refine RunsWith.bindNil (runsWith_emit _) fun _ => ?_
  refine RunsWith.bindNil (runsWith_emit _) fun _ => ?_
  refine RunsWith.bindNil (runsWith_emit _) fun _ => ?_
  refine RunsWith.bindNil (runsWith_emit _) fun _ => ?_
  refine RunsWith.bindNil (runsWith_emit _) fun _ => ?_
  refine RunsWith.bindNil (runsWith_emit _) fun _ => ?_
  refine RunsWith.bindNil (runsWith_emit _) fun _ => ?_
  refine RunsWith.bindNil (runsWith_emit _) fun _ => ?_
  refine RunsWith.bindNil (runsWith_emit _) fun _ => ?_
  refine RunsWith.bindNil (runsWith_emit _) fun _ => ?_
  refine RunsWith.bindNil (runsWith_print_info _) fun _ => ?_
  exact runsWith_emit _

theorem runsWith_mainSetup (w : World) :
    RunsWith (mainSetup w) ["MovieLens Datasets", "Netflix Datasets", "TMDB Dataset",
      "MyAnimeList Dataset", "Verification"] := by
  unfold mainSetup
  refine RunsWith.bindNil (runsWith_print_header0 _) fun _ => ?_
  refine RunsWith.bindNil (runsWith_emit _) fun _ => ?_
  refine RunsWith.bindNil (runsWith_emit _) fun _ => ?_
  refine RunsWith.bindNil (runsWith_modFS _) fun _ => ?_
  refine RunsWith.bindNil (runsWith_check_kaggle_api w) fun has_kaggle => ?_
  refine RunsWith.bindNil (runsWith_whenB _ ?_) fun _ => ?_
  · exact RunsWith.bindNil (runsWith_emit _)
      fun _ => runsWith_print_kaggle_setup_instructions
  refine RunsWith.bindNil (runsWith_emit _) fun _ => ?_
  refine RunsWith.bindCons (runsWith_setup_movielens w) fun _ => ?_
  refine RunsWith.bindCons (runsWith_setup_netflix_datasets w has_kaggle) fun _ => ?_
  refine RunsWith.bindCons (runsWith_setup_tmdb_dataset w has_kaggle) fun _ => ?_
  refine RunsWith.bindCons (runsWith_setup_anime_dataset w has_kaggle) fun _ => ?_
  refine RunsWith.bindNil (runsWith_emit _) fun _ => ?_
  refine RunsWith.bindCons runsWith_verify_datasets fun all_present => ?_
  refine RunsWith.bindNil (runsWith_print_header0 _) fun _ => ?_
  refine RunsWith.bindNil (runsWith_iteM _ ?_ ?_) fun _ => ?_
  · exact RunsWith.bindNil (runsWith_print_success _) fun _ => runsWith_print_info _
  · refine RunsWith.bindNil (runsWith_print_warning _) fun _ => ?_
    refine RunsWith.bindNil (runsWith_whenB _ ?_) fun _ => ?_
    · refine RunsWith.bindNil (runsWith_print_info _) fun _ => ?_
      exact RunsWith.bindNil (runsWith_emit _) fun _ => runsWith_emit _
    · exact runsWith_print_info _
  · exact runsWith_emit _

/-! ### Branch equations for the Kaggle-mediated routines -/

theorem run_setup_netflix_skip (w : World) (hk : Bool) (s : St)
    (h1 : (s.fs.pathExists netflixDir && s.fs.nonemptyDir netflixDir) = true)
    (h2 : (s.fs.pathExists netflixPrizeDir && s.fs.nonemptyDir netflixPrizeDir) = true) :
    setup_netflix_datasets w hk s =
      (Except.ok (),
       { s with out := s.out ++ ["", bar70, "Netflix Datasets", bar70, "",
           "[OK] Netflix Shows: Already exists", "[OK] Netflix Prize: Already exists"] }) := by
  unfold setup_netflix_datasets
  simp only [run_bind, run_print_header, run_check_dataset_exists, h1, if_true]
  simp only [h2, if_true]
  simp [run_pure]

theorem run_setup_netflix_manual (w : World) (s : St)
    (h1 : (s.fs.pathExists netflixDir && s.fs.nonemptyDir netflixDir) = false)
    (h2 : (s.fs.pathExists netflixPrizeDir && s.fs.nonemptyDir netflixPrizeDir) = false) :
    setup_netflix_datasets w false s =
      (Except.ok (),
       { s with out := s.out ++ ["", bar70, "Netflix Datasets", bar70, "",
           "[WARNING] Kaggle API not configured - Manual download required",
           "[INFO] Netflix Shows:",
           "  1. Go to: https://www.kaggle.com/datasets/shivamb/netflix-shows",
           "  2. Click \x27Download\x27 button (requires Kaggle login)",
           "  3. Extract netflix_titles.csv to: datasets/Netflix/netflix/",
           "",
           "[INFO] Netflix Prize:",
           "  1. Go to: https://www.kaggle.com/datasets/netflix-inc/netflix-prize-data",
           "  2. Click \x27Download\x27 button (requires Kaggle login)",
           "  3. Extract all files to: datasets/Netflix/netflix_prize/"] }) := by
  unfold setup_netflix_datasets
  simp only [run_bind, run_print_header, run_check_dataset_exists, h1]
  simp only [Bool.false_eq_true, if_false]
  simp only [h2, Bool.false_eq_true, if_false]
  simp [run_pure, run_whenB, run_bind, run_emit, print_warning, print_info]

theorem netflix_shows_evs_cases (w : World) (hk : Bool) (s : St)
    (h1 : (s.fs.pathExists netflixDir && s.fs.nonemptyDir netflixDir) = true) :
    ((setup_netflix_datasets w hk s).2).evs = s.evs ∨
    ((setup_netflix_datasets w hk s).2).evs =
      s.evs ++ [Event.kaggleDl "netflix-inc/netflix-prize-data"] := by
  by_cases h2 : (s.fs.pathExists netflixPrizeDir && s.fs.nonemptyDir netflixPrizeDir) = true
  · rw [run_setup_netflix_skip w hk s h1 h2]
    exact Or.inl rfl
  · rw [Bool.not_eq_true] at h2
    cases hk
    · refine Or.inl ?_
      unfold setup_netflix_datasets
      simp only [run_bind, run_print_header, run_check_dataset_exists, h1, if_true]
      simp only [h2, Bool.false_eq_true, if_false]
      simp [run_pure, run_whenB, run_bind, run_emit, print_warning, print_info]
    · unfold setup_netflix_datasets
      simp only [run_bind, run_print_header, run_check_dataset_exists, h1, if_true]
      simp only [h2, Bool.false_eq_true, if_false]
      cases himp : w.imp
      · cases hkg : w.kgOk "netflix-inc/netflix-prize-data"
        · refine Or.inr ?_
          simp [run_pure, run_whenB, run_bind, run_setup_kaggle_dataset, himp, hkg]
        · refine Or.inr ?_
          simp [run_pure, run_whenB, run_bind, run_setup_kaggle_dataset, himp, hkg]
      · refine Or.inl ?_
        simp [run_pure, run_whenB, run_bind, run_setup_kaggle_dataset, himp]
      · refine Or.inl ?_
        simp [run_pure, run_whenB, run_bind, run_setup_kaggle_dataset, himp]

theorem netflix_prize_evs_cases (w : World) (hk : Bool) (s : St)
    (h2 : (s.fs.pathExists netflixPrizeDir && s.fs.nonemptyDir netflixPrizeDir) = true) :
    ((setup_netflix_datasets w hk s).2).evs = s.evs ∨
    ((setup_netflix_datasets w hk s).2).evs =
      s.evs ++ [Event.kaggleDl "shivamb/netflix-shows"] := by
  by_cases h1 : (s.fs.pathExists netflixDir && s.fs.nonemptyDir netflixDir) = true
  · rw [run_setup_netflix_skip w hk s h1 h2]
    exact Or.inl rfl
  · rw [Bool.not_eq_true] at h1
    cases hk
    · refine Or.inl ?_
      unfold setup_netflix_datasets
      simp only [run_bind, run_print_header, run_check_dataset_exists, h1,
        Bool.false_eq_true, if_false]
      simp only [h2, if_true]
      simp [run_pure, run_whenB, run_bind, run_emit, print_warning, print_info]
    · unfold setup_netflix_datasets
      simp only [run_bind, run_print_header, run_check_dataset_exists, h1,
        Bool.false_eq_true, if_false]
      simp only [h2, if_true]
      cases himp : w.imp
      · cases hkg : w.kgOk "shivamb/netflix-shows"
        · refine Or.inr ?_
          simp [run_pure, run_whenB, run_bind, run_setup_kaggle_dataset, himp, hkg]
        · refine Or.inr ?_
          simp [run_pure, run_whenB, run_bind, run_setup_kaggle_dataset, himp, hkg]
      · refine Or.inl ?_
        simp [run_pure, run_whenB, run_bind, run_setup_kaggle_dataset, himp]
      · refine Or.inl ?_
        simp [run_pure, run_whenB, run_bind, run_setup_kaggle_dataset, himp]

theorem run_setup_tmdb_skip (w : World) (hk : Bool) (s : St)
    (h : (s.fs.pathExists tmdbDir && s.fs.nonemptyDir tmdbDir) = true) :
    setup_tmdb_dataset w hk s =
      (Except.ok (),
       { s with out := s.out ++ ["", bar70, "TMDB Dataset", bar70, "",
           "[OK] TMDB Movies: Already exists"] }) := by
  unfold setup_tmdb_dataset
  simp only [run_bind, run_print_header, run_check_dataset_exists, h, if_true]
  simp [run_pure]

theorem run_setup_tmdb_manual (w : World) (s : St)
    (h : (s.fs.pathExists tmdbDir && s.fs.nonemptyDir tmdbDir) = false) :
    setup_tmdb_dataset w false s =
      (Except.ok (),
       { s with out := s.out ++ ["", bar70, "TMDB Dataset", bar70, "",
           "[WARNING] Kaggle API not configured - Manual download required",
           "[INFO] TMDB Movies:",
           "  1. Go to: https://www.kaggle.com/datasets/asaniczka/tmdb-movies-dataset-2023-930k-movies",
           "  2. Click \x27Download\x27 button (requires Kaggle login)",
           "  3. Extract TMDB_movie_dataset_v11.csv to: datasets/TMDB/"] }) := by
  unfold setup_tmdb_dataset
  simp only [run_bind, run_print_header, run_check_dataset_exists, h,
    Bool.false_eq_true, if_false]
  simp [run_pure, run_bind, run_emit, print_warning, print_info]

theorem run_setup_anime_skip (w : World) (hk : Bool) (s : St)
    (h : (s.fs.pathExists animeDir && s.fs.nonemptyDir animeDir) = true) :
    setup_anime_dataset w hk s =
      (Except.ok (),
       { s with out := s.out ++ ["", bar70, "MyAnimeList Dataset", bar70, "",
           "[OK] MyAnimeList: Already exists"] }) := by
  unfold setup_anime_dataset
  simp only [run_bind, run_print_header, run_check_dataset_exists, h, if_true]
  simp [run_pure]

theorem run_setup_anime_manual (w : World) (s : St)
    (h : (s.fs.pathExists animeDir && s.fs.nonemptyDir animeDir) = false) :
    setup_anime_dataset w false s =
      (Except.ok (),
       { s with out := s.out ++ ["", bar70, "MyAnimeList Dataset", bar70, "",
           "[WARNING] Kaggle API not configured - Manual download required",
           "[INFO] MyAnimeList:",
           "  1. Go to: https://www.kaggle.com/datasets/hernan4444/anime-recommendation-database-2020",
           "  2. Click \x27Download\x27 button (requires Kaggle login)",
           "  3. Extract all CSV files to: datasets/anime/"] }) := by
  unfold setup_anime_dataset
  simp only [run_bind, run_print_header, run_check_dataset_exists, h,
    Bool.false_eq_true, if_false]
  simp [run_pure, run_bind, run_emit, print_warning, print_info]

/-! ### Helper facts about verification and empty directories -/

theorem verify_missing_of_absent (s : St) (e : String × FPath)
    (he : e ∈ required_files) (hne : s.fs.pathExists e.2 = false) :
    ("[ERROR] " ++ (e.1 ++ ": Missing")) ∈ ((verify_datasets s).2).out ∧
    (verify_datasets s).1 = Except.ok false := by
  constructor
  · rw [run_verify_datasets]
    refine List.mem_append.mpr (Or.inr (List.mem_append.mpr (Or.inr ?_)))
    refine List.mem_map.mpr ⟨e, he, ?_⟩
    simp [hne]
  · have hall : required_files.all (fun e => s.fs.pathExists e.2) = false := by
      cases hall : required_files.all (fun e => s.fs.pathExists e.2)
      · rfl
      · exact absurd (List.all_eq_true.mp hall e he) (by simp [hne])
    rw [run_verify_datasets, hall]

theorem verify_found_of_present (s : St) (e : String × FPath)
    (he : e ∈ required_files) (hp : s.fs.pathExists e.2 = true) :
    ("[OK] " ++ (e.1 ++ ": Found")) ∈ ((verify_datasets s).2).out := by
  rw [run_verify_datasets]
  refine List.mem_append.mpr (Or.inr (List.mem_append.mpr (Or.inr ?_)))
  refine List.mem_map.mpr ⟨e, he, ?_⟩
  simp [hp]

theorem pathExists_false_of_nonemptyDir_false (fs : FS) (d p : FPath)
    (h : fs.nonemptyDir d = false) (hb : strictBelow d p = true) :
    fs.pathExists p = false := by
  unfold FS.nonemptyDir at h
  unfold FS.pathExists
  rw [Bool.or_eq_false_iff] at h
  obtain ⟨hf, hd⟩ := h
  rw [Bool.or_eq_false_iff]
  constructor
  · by_cases hp : p ∈ fs.files
    · exact absurd (List.any_eq_true.mpr ⟨p, hp, hb⟩) (by simp [hf])
    · simp [hp]
  · by_cases hp : p ∈ fs.dirs
    · exact absurd (List.any_eq_true.mpr ⟨p, hp, hb⟩) (by simp [hd])
    · simp [hp]

/-! ### The claims -/

/-- C1: `verify_datasets` returns true if and only if every one of the six
fixed marker paths (`datasets/MovieLens/ml-1m/ratings.dat`,
`datasets/MovieLens/ml-25m/ratings.csv`,
`datasets/Netflix/netflix/netflix_titles.csv`,
`datasets/Netflix/netflix_prize`, `datasets/TMDB/TMDB_movie_dataset_v11.csv`,
`datasets/anime/anime.csv`) exists in the filesystem state; for every entry
whose path is absent it emits a `Missing` line and the result is false. -/
theorem claim_C1 (s : St) :
    ((verify_datasets s).1 = Except.ok true ↔
      (s.fs.pathExists ["datasets", "MovieLens", "ml-1m", "ratings.dat"] = true ∧
       s.fs.pathExists ["datasets", "MovieLens", "ml-25m", "ratings.csv"] = true ∧
       s.fs.pathExists ["datasets", "Netflix", "netflix", "netflix_titles.csv"] = true ∧
       s.fs.pathExists ["datasets", "Netflix", "netflix_prize"] = true ∧
       s.fs.pathExists ["datasets", "TMDB", "TMDB_movie_dataset_v11.csv"] = true ∧
       s.fs.pathExists ["datasets", "anime", "anime.csv"] = true)) ∧
    (∀ e ∈ required_files, s.fs.pathExists e.2 = false →
      ("[ERROR] " ++ (e.1 ++ ": Missing")) ∈ ((verify_datasets s).2).out ∧
      (verify_datasets s).1 = Except.ok false) := by
  constructor
  · rw [run_verify_datasets]
    simp [required_files]
  · intro e he hne
    exact verify_missing_of_absent s e he hne

/-- Witness for C1 at a concrete input: on an empty filesystem the
MovieLens 1M entry is reported `Missing` and the result is false. -/
theorem claim_C1_witness :
    ("[ERROR] " ++ ("MovieLens 1M" ++ ": Missing")) ∈ ((verify_datasets st0).2).out ∧
    (verify_datasets st0).1 = Except.ok false :=
  (claim_C1 st0).2 ("MovieLens 1M", ["datasets", "MovieLens", "ml-1m", "ratings.dat"])
    (by decide) (by decide)

/-- C2: for every world (outcome of every download, extraction,
credential-probe and API operation) and every start state, no exception
escapes to the orchestrator — `mainSetup` returns normally — and every
per-dataset routine and the final verification still run (each of their
header lines is printed). -/
theorem claim_C2 (w : World) (s : St) :
    (mainSetup w s).1 = Except.ok () ∧
    "MovieLens Datasets" ∈ ((mainSetup w s).2).out ∧
    "Netflix Datasets" ∈ ((mainSetup w s).2).out ∧
    "TMDB Dataset" ∈ ((mainSetup w s).2).out ∧
    "MyAnimeList Dataset" ∈ ((mainSetup w s).2).out ∧
    "Verification" ∈ ((mainSetup w s).2).out := by
  obtain ⟨a, s1, heq, t, ht, hmem⟩ := runsWith_mainSetup w s
  rw [heq]
  refine ⟨rfl, ?_, ?_, ?_, ?_, ?_⟩ <;>
  · show _ ∈ s1.out
    rw [ht]
    exact List.mem_append.mpr (Or.inr (hmem _ (by simp)))

/-- C4: `check_kaggle_api` returns false when the kaggle library cannot
be imported (ImportError), false when the import succeeds but credentials
are absent (OSError), and true only when both are present; in every case the
result is a boolean, never a raised error. -/
theorem claim_C4 (w : World) (s : St) :
    (check_kaggle_api w s).1 = Except.ok (decide (w.imp = ImportOutcome.ok)) ∧
    (w.imp = ImportOutcome.notInstalled → (check_kaggle_api w s).1 = Except.ok false) ∧
    (w.imp = ImportOutcome.credsMissing → (check_kaggle_api w s).1 = Except.ok false) ∧
    (w.imp = ImportOutcome.ok → (check_kaggle_api w s).1 = Except.ok true) := by
  rw [run_check_kaggle_api]
  refine ⟨rfl, ?_, ?_, ?_⟩ <;>
  · intro h
    simp [h]

/-- Witness for C4 at a concrete input: with the kaggle package missing the
probe returns false rather than raising. -/
theorem claim_C4_witness :
    (check_kaggle_api wNoPkg st0).1 = Except.ok false :=
  (claim_C4 wNoPkg st0).2.1 rfl

/-- C7: every run that terminates normally exits with status 0 regardless
of the verification outcome: `mainSetup` never raises (so Python exits 0)
and sets no exit code. -/
theorem claim_C7 (w : World) (s : St) : processExit w s = 0 := by
  unfold processExit
  obtain ⟨a, s1, heq, -⟩ := runsWith_mainSetup w s
  rw [heq]

/-- C8: `verify_datasets` never mutates filesystem state (and attempts no
external operation): the filesystem and the event log after the call equal
those before. -/
theorem claim_C8 (s : St) :
    ((verify_datasets s).2).fs = s.fs ∧ ((verify_datasets s).2).evs = s.evs := by
  rw [run_verify_datasets]
  exact ⟨rfl, rfl⟩

/-- C3: every per-dataset routine is idempotent.  For the direct-download
variant, a populated destination makes the item a pure skip (no event is
logged, the filesystem is untouched, only the warning line is printed).
For the Kaggle-mediated variant: with both Netflix destinations populated
the routine is a pure skip; with one populated, no download event for that
item is ever logged; and a populated TMDB or MyAnimeList destination makes
those routines pure skips. -/
theorem claim_C3 :
    (∀ (w : World) (d : MLItem) (s : St),
      (s.fs.pathExists (movielensDir ++ [d.extract_dir]) &&
       s.fs.nonemptyDir (movielensDir ++ [d.extract_dir])) = true →
      setupMovielensItem w d s =
        (Except.ok (),
         { s with out := s.out ++
             ["[WARNING] " ++ (d.name ++ " already exists. Skipping...")] })) ∧
    (∀ (w : World) (hk : Bool) (s : St),
      (s.fs.pathExists netflixDir && s.fs.nonemptyDir netflixDir) = true →
      (s.fs.pathExists netflixPrizeDir && s.fs.nonemptyDir netflixPrizeDir) = true →
      setup_netflix_datasets w hk s =
        (Except.ok (),
         { s with out := s.out ++ ["", bar70, "Netflix Datasets", bar70, "",
             "[OK] Netflix Shows: Already exists",
             "[OK] Netflix Prize: Already exists"] })) ∧
    (∀ (w : World) (hk : Bool) (s : St),
      (s.fs.pathExists netflixDir && s.fs.nonemptyDir netflixDir) = true →
      ∀ ev ∈ ((setup_netflix_datasets w hk s).2).evs,
        ev ∈ s.evs ∨ ev = Event.kaggleDl "netflix-inc/netflix-prize-data") ∧
    (∀ (w : World) (hk : Bool) (s : St),
      (s.fs.pathExists netflixPrizeDir && s.fs.nonemptyDir netflixPrizeDir) = true →
      ∀ ev ∈ ((setup_netflix_datasets w hk s).2).evs,
        ev ∈ s.evs ∨ ev = Event.kaggleDl "shivamb/netflix-shows") ∧
    (∀ (w : World) (hk : Bool) (s : St),
      (s.fs.pathExists tmdbDir && s.fs.nonemptyDir tmdbDir) = true →
      setup_tmdb_dataset w hk s =
        (Except.ok (),
         { s with out := s.out ++ ["", bar70, "TMDB Dataset", bar70, "",
             "[OK] TMDB Movies: Already exists"] })) ∧
    (∀ (w : World) (hk : Bool) (s : St),
      (s.fs.pathExists animeDir && s.fs.nonemptyDir animeDir) = true →
      setup_anime_dataset w hk s =
        (Except.ok (),
         { s with out := s.out ++ ["", bar70, "MyAnimeList Dataset", bar70, "",
             "[OK] MyAnimeList: Already exists"] })) := by
  refine ⟨?_, ?_, ?_, ?_, ?_, ?_⟩
  · intro w d s h
    exact run_setupMovielensItem_skip w d s h
  · intro w hk s h1 h2
    exact run_setup_netflix_skip w hk s h1 h2
  · intro w hk s h1 ev hev
    rcases netflix_shows_evs_cases w hk s h1 with hc | hc
    · rw [hc] at hev
      exact Or.inl hev
    · rw [hc] at hev
      rcases List.mem_append.mp hev with h | h
      · exact Or.inl h
      · exact Or.inr (List.mem_singleton.mp h)
  · intro w hk s h2 ev hev
    rcases netflix_prize_evs_cases w hk s h2 with hc | hc
    · rw [hc] at hev
      exact Or.inl hev
    · rw [hc] at hev
      rcases List.mem_append.mp hev with h | h
      · exact Or.inl h
      · exact Or.inr (List.mem_singleton.mp h)
  · intro w hk s h
    exact run_setup_tmdb_skip w hk s h
  · intro w hk s h
    exact run_setup_anime_skip w hk s h

/-- Witness for C3 at concrete inputs: with every destination populated the
routines are pure skips, and with only Netflix Shows (resp. Prize)
populated the one download event logged is for the other Netflix item. -/
theorem claim_C3_witness :
    (setupMovielensItem wBase ml1m stPop =
      (Except.ok (),
       { stPop with out := stPop.out ++
           ["[WARNING] " ++ (ml1m.name ++ " already exists. Skipping...")] })) ∧
    (setup_netflix_datasets wBase true stPop =
      (Except.ok (),
       { stPop with out := stPop.out ++ ["", bar70, "Netflix Datasets", bar70, "",
           "[OK] Netflix Shows: Already exists",
           "[OK] Netflix Prize: Already exists"] })) ∧
    (Event.kaggleDl "netflix-inc/netflix-prize-data" ∈ stShows.evs ∨
     Event.kaggleDl "netflix-inc/netflix-prize-data" =
       Event.kaggleDl "netflix-inc/netflix-prize-data") ∧
    (Event.kaggleDl "shivamb/netflix-shows" ∈ stPrizePop.evs ∨
     Event.kaggleDl "shivamb/netflix-shows" = Event.kaggleDl "shivamb/netflix-shows") ∧
    (setup_tmdb_dataset wBase true stPop =
      (Except.ok (),
       { stPop with out := stPop.out ++ ["", bar70, "TMDB Dataset", bar70, "",
           "[OK] TMDB Movies: Already exists"] })) ∧
    (setup_anime_dataset wBase true stPop =
      (Except.ok (),
       { stPop with out := stPop.out ++ ["", bar70, "MyAnimeList Dataset", bar70, "",
           "[OK] MyAnimeList: Already exists"] })) :=
  ⟨claim_C3.1 wBase ml1m stPop (by decide),
   claim_C3.2.1 wBase true stPop (by decide) (by decide),
   claim_C3.2.2.1 wBase true stShows (by decide)
     (Event.kaggleDl "netflix-inc/netflix-prize-data") (by decide),
   claim_C3.2.2.2.1 wBase true stPrizePop (by decide)
     (Event.kaggleDl "shivamb/netflix-shows") (by decide),
   claim_C3.2.2.2.2.1 wBase true stPop (by decide),
   claim_C3.2.2.2.2.2 wBase true stPop (by decide)⟩

/-- C5: for a direct-download item whose download succeeded, the archive
file is deleted only after `extract_zip` reports success and never before:
if extraction fails the archive remains on disk, and only on extraction
success is it gone. -/
theorem claim_C5 (w : World) (d : MLItem) (s : St)
    (hskip : (s.fs.pathExists (movielensDir ++ [d.extract_dir]) &&
        s.fs.nonemptyDir (movielensDir ++ [d.extract_dir])) = false)
    (hdl : w.dlOk d.url = true) :
    (w.zipOk (movielensDir ++ [d.filename]) = false →
      movielensDir ++ [d.filename] ∈ (((setupMovielensItem w d s).2).fs).files) ∧
    (w.zipOk (movielensDir ++ [d.filename]) = true →
      movielensDir ++ [d.filename] ∉ (((setupMovielensItem w d s).2).fs).files) := by
  constructor
  · intro hz
    rw [run_setupMovielensItem_zipFail w d s hskip hdl hz]
    exact mem_addFile_self s.fs (movielensDir ++ [d.filename])
  · intro hz
    rw [run_setupMovielensItem_success w d s hskip hdl hz]
    exact not_mem_removeFile_self _ (movielensDir ++ [d.filename])

/-- Witness for C5 at a concrete input: on an empty filesystem, with the
download succeeding and the archive corrupt, the `ml-1m.zip` file is still
on disk after the routine. -/
theorem claim_C5_witness :
    (wZipFails.zipOk (movielensDir ++ [ml1m.filename]) = false →
      movielensDir ++ [ml1m.filename] ∈
        (((setupMovielensItem wZipFails ml1m st0).2).fs).files) ∧
    (wZipFails.zipOk (movielensDir ++ [ml1m.filename]) = true →
      movielensDir ++ [ml1m.filename] ∉
        (((setupMovielensItem wZipFails ml1m st0).2).fs).files) :=
  claim_C5 wZipFails ml1m st0 (by decide) (by decide)

/-- C9: an existing but empty destination directory is treated as not yet
satisfied: the skip check returns false for it, and the MovieLens loop body
proceeds to attempt the download (a download event for the URL of the item is
logged). -/
theorem claim_C9 :
    (∀ (p : FPath) (n : String) (s : St),
      s.fs.pathExists p = true → s.fs.nonemptyDir p = false →
      check_dataset_exists p n s = (Except.ok false, s)) ∧
    (∀ (w : World) (d : MLItem) (s : St),
      s.fs.pathExists (movielensDir ++ [d.extract_dir]) = true →
      s.fs.nonemptyDir (movielensDir ++ [d.extract_dir]) = false →
      Event.download d.url ∈ ((setupMovielensItem w d s).2).evs) := by
  constructor
  · intro p n s hp hn
    rw [run_check_dataset_exists]
    simp [hn]
  · intro w d s hp hn
    have hskip : (s.fs.pathExists (movielensDir ++ [d.extract_dir]) &&
        s.fs.nonemptyDir (movielensDir ++ [d.extract_dir])) = false := by
      rw [hn, Bool.and_false]
    cases hdl : w.dlOk d.url
    · rw [run_setupMovielensItem_dlFail w d s hskip hdl]
      simp
    · cases hz : w.zipOk (movielensDir ++ [d.filename])
      · rw [run_setupMovielensItem_zipFail w d s hskip hdl hz]
        simp
      · rw [run_setupMovielensItem_success w d s hskip hdl hz]
        simp

/-- Witness for C9 at a concrete input: with `datasets/MovieLens/ml-1m`
existing and empty, the skip check returns false and the download of
MovieLens 1M is attempted. -/
theorem claim_C9_witness :
    (check_dataset_exists ["datasets", "MovieLens", "ml-1m"] "MovieLens 1M" stEmptyML =
      (Except.ok false, stEmptyML)) ∧
    Event.download ml1m.url ∈ ((setupMovielensItem wBase ml1m stEmptyML).2).evs :=
  ⟨claim_C9.1 ["datasets", "MovieLens", "ml-1m"] "MovieLens 1M" stEmptyML
     (by decide) (by decide),
   claim_C9.2 wBase ml1m stEmptyML (by decide) (by decide)⟩

/-- C10: `setup_kaggle_dataset` is not atomic on failure: with the
kaggle import succeeding, it creates the destination directory before the
download call, so when that call fails the routine returns false yet the newly
created empty destination directory remains (no file was written); for
Netflix Prize, whose verification marker is the directory itself, a
subsequent `verify_datasets` then prints `Found` although the directory
holds no data. -/
theorem claim_C10 (w : World) (s : St)
    (himp : w.imp = ImportOutcome.ok)
    (hkg : w.kgOk "netflix-inc/netflix-prize-data" = false) :
    (setup_kaggle_dataset w "netflix-inc/netflix-prize-data" netflixPrizeDir
      "Netflix Prize" s).1 = Except.ok false ∧
    netflixPrizeDir ∈
      (((setup_kaggle_dataset w "netflix-inc/netflix-prize-data" netflixPrizeDir
        "Netflix Prize" s).2).fs).dirs ∧
    (((setup_kaggle_dataset w "netflix-inc/netflix-prize-data" netflixPrizeDir
      "Netflix Prize" s).2).fs).files = s.fs.files ∧
    (s.fs.nonemptyDir netflixPrizeDir = false →
      (((setup_kaggle_dataset w "netflix-inc/netflix-prize-data" netflixPrizeDir
        "Netflix Prize" s).2).fs).nonemptyDir netflixPrizeDir = false) ∧
    ("[OK] " ++ ("Netflix Prize" ++ ": Found")) ∈
      ((verify_datasets ((setup_kaggle_dataset w "netflix-inc/netflix-prize-data"
        netflixPrizeDir "Netflix Prize" s).2)).2).out := by
  have hnp : ∀ fs : FS, fs.nonemptyDir netflixPrizeDir = false →
      (fs.mkdirParents netflixPrizeDir).nonemptyDir netflixPrizeDir = false := by
    intro fs h
    unfold FS.nonemptyDir at h ⊢
    rw [Bool.or_eq_false_iff] at h
    obtain ⟨hf, hd⟩ := h
    rw [mkdirParents_files, hf, Bool.false_or]
    rw [List.any_eq_false]
    intro e he
    rcases mkdirParents_dirs_subset fs netflixPrizeDir e he with h1 | h1
    · rw [List.any_eq_false] at hd
      exact hd e h1
    · have hanc : ancestors netflixPrizeDir =
          [["datasets"], ["datasets", "Netflix"],
           ["datasets", "Netflix", "netflix_prize"]] := by decide
      rw [hanc] at h1
      simp only [List.mem_cons, List.not_mem_nil, or_false] at h1
      rcases h1 with h2 | h2 | h2 <;>
      · subst h2
        decide
  rw [run_setup_kaggle_dataset, himp]
  simp only [hkg, Bool.false_eq_true, if_false]
  refine ⟨trivial, ?_, mkdirParents_files s.fs netflixPrizeDir, ?_, ?_⟩
  · exact mem_mkdirParents_self s.fs netflixPrizeDir (by decide)
  · intro h
    exact hnp s.fs h
  · refine verify_found_of_present _ ("Netflix Prize", netflixPrizeDir) ?_ ?_
    · decide
    · unfold FS.pathExists
      have hm : netflixPrizeDir ∈ (s.fs.mkdirParents netflixPrizeDir).dirs :=
        mem_mkdirParents_self s.fs netflixPrizeDir (by decide)
      simp [hm]

/-- Witness for C10 at a concrete input: on an empty filesystem, with
credentials present but the Kaggle download failing, the routine returns
false, the empty `netflix_prize` directory exists, and verification prints
`Found` for Netflix Prize. -/
theorem claim_C10_witness :
    (setup_kaggle_dataset wKgFails "netflix-inc/netflix-prize-data" netflixPrizeDir
      "Netflix Prize" st0).1 = Except.ok false ∧
    netflixPrizeDir ∈
      (((setup_kaggle_dataset wKgFails "netflix-inc/netflix-prize-data" netflixPrizeDir
        "Netflix Prize" st0).2).fs).dirs ∧
    (((setup_kaggle_dataset wKgFails "netflix-inc/netflix-prize-data" netflixPrizeDir
      "Netflix Prize" st0).2).fs).files = st0.fs.files ∧
    (st0.fs.nonemptyDir netflixPrizeDir = false →
      (((setup_kaggle_dataset wKgFails "netflix-inc/netflix-prize-data" netflixPrizeDir
        "Netflix Prize" st0).2).fs).nonemptyDir netflixPrizeDir = false) ∧
    ("[OK] " ++ ("Netflix Prize" ++ ": Found")) ∈
      ((verify_datasets ((setup_kaggle_dataset wKgFails "netflix-inc/netflix-prize-data"
        netflixPrizeDir "Netflix Prize" st0).2)).2).out :=
  claim_C10 wKgFails st0 rfl rfl

/-- Counterexample to C6 as stated: `datasets/Netflix/netflix_prize` exists
but is empty, so the destination is unpopulated and (without API access)
the routine writes nothing — yet the subsequent verification reports
Netflix Prize `Found`, not `Missing`, because the marker of that dataset is the
directory itself. -/
theorem claim_C6_counterexample :
    ((setup_netflix_datasets wBase false stPrizeDir).2).fs = stPrizeDir.fs ∧
    ("[OK] " ++ ("Netflix Prize" ++ ": Found")) ∈
      ((verify_datasets ((setup_netflix_datasets wBase false stPrizeDir).2)).2).out ∧
    ("[ERROR] " ++ ("Netflix Prize" ++ ": Missing")) ∉
      ((verify_datasets ((setup_netflix_datasets wBase false stPrizeDir).2)).2).out := by
  refine ⟨?_, ?_, ?_⟩ <;> decide

/-- C6 (amended): a Kaggle-mediated routine called with `has_kaggle` false
and unpopulated destinations prints the manual-acquisition instructions
(source URL, steps, destination path) and returns without invoking any
download and without touching the filesystem or the event log; a subsequent
verification reports the dataset `Missing` for the datasets whose marker is
a file below the destination (Netflix Shows, TMDB, MyAnimeList) when the
destination is empty, and for Netflix Prize — whose marker is the
destination directory itself — when that directory does not exist. -/
theorem claim_C6 :
    (∀ (w : World) (s : St),
      (s.fs.pathExists netflixDir && s.fs.nonemptyDir netflixDir) = false →
      (s.fs.pathExists netflixPrizeDir && s.fs.nonemptyDir netflixPrizeDir) = false →
      setup_netflix_datasets w false s =
        (Except.ok (),
         { s with out := s.out ++ ["", bar70, "Netflix Datasets", bar70, "",
             "[WARNING] Kaggle API not configured - Manual download required",
             "[INFO] Netflix Shows:",
             "  1. Go to: https://www.kaggle.com/datasets/shivamb/netflix-shows",
             "  2. Click \x27Download\x27 button (requires Kaggle login)",
             "  3. Extract netflix_titles.csv to: datasets/Netflix/netflix/",
             "",
             "[INFO] Netflix Prize:",
             "  1. Go to: https://www.kaggle.com/datasets/netflix-inc/netflix-prize-data",
             "  2. Click \x27Download\x27 button (requires Kaggle login)",
             "  3. Extract all files to: datasets/Netflix/netflix_prize/"] })) ∧
    (∀ (w : World) (s : St),
      (s.fs.pathExists tmdbDir && s.fs.nonemptyDir tmdbDir) = false →
      setup_tmdb_dataset w false s =
        (Except.ok (),
         { s with out := s.out ++ ["", bar70, "TMDB Dataset", bar70, "",
             "[WARNING] Kaggle API not configured - Manual download required",
             "[INFO] TMDB Movies:",
             "  1. Go to: https://www.kaggle.com/datasets/asaniczka/tmdb-movies-dataset-2023-930k-movies",
             "  2. Click \x27Download\x27 button (requires Kaggle login)",
             "  3. Extract TMDB_movie_dataset_v11.csv to: datasets/TMDB/"] })) ∧
    (∀ (w : World) (s : St),
      (s.fs.pathExists animeDir && s.fs.nonemptyDir animeDir) = false →
      setup_anime_dataset w false s =
        (Except.ok (),
         { s with out := s.out ++ ["", bar70, "MyAnimeList Dataset", bar70, "",
             "[WARNING] Kaggle API not configured - Manual download required",
             "[INFO] MyAnimeList:",
             "  1. Go to: https://www.kaggle.com/datasets/hernan4444/anime-recommendation-database-2020",
             "  2. Click \x27Download\x27 button (requires Kaggle login)",
             "  3. Extract all CSV files to: datasets/anime/"] })) ∧
    (∀ (w : World) (s : St),
      s.fs.nonemptyDir netflixDir = false →
      (s.fs.pathExists netflixPrizeDir && s.fs.nonemptyDir netflixPrizeDir) = false →
      ("[ERROR] " ++ ("Netflix Shows" ++ ": Missing")) ∈
        ((verify_datasets ((setup_netflix_datasets w false s).2)).2).out ∧
      (verify_datasets ((setup_netflix_datasets w false s).2)).1 = Except.ok false) ∧
    (∀ (w : World) (s : St),
      s.fs.nonemptyDir netflixDir = false →
      s.fs.pathExists netflixPrizeDir = false →
      ("[ERROR] " ++ ("Netflix Prize" ++ ": Missing")) ∈
        ((verify_datasets ((setup_netflix_datasets w false s).2)).2).out) ∧
    (∀ (w : World) (s : St),
      s.fs.nonemptyDir tmdbDir = false →
      ("[ERROR] " ++ ("TMDB" ++ ": Missing")) ∈
        ((verify_datasets ((setup_tmdb_dataset w false s).2)).2).out ∧
      (verify_datasets ((setup_tmdb_dataset w false s).2)).1 = Except.ok false) ∧
    (∀ (w : World) (s : St),
      s.fs.nonemptyDir animeDir = false →
      ("[ERROR] " ++ ("MyAnimeList" ++ ": Missing")) ∈
        ((verify_datasets ((setup_anime_dataset w false s).2)).2).out ∧
      (verify_datasets ((setup_anime_dataset w false s).2)).1 = Except.ok false) := by
  refine ⟨?_, ?_, ?_, ?_, ?_, ?_, ?_⟩
  · intro w s h1 h2
    exact run_setup_netflix_manual w s h1 h2
  · intro w s h
    exact run_setup_tmdb_manual w s h
  · intro w s h
    exact run_setup_anime_manual w s h
  · intro w s hne hp2
    have h1 : (s.fs.pathExists netflixDir && s.fs.nonemptyDir netflixDir) = false := by
      rw [hne, Bool.and_false]
    rw [run_setup_netflix_manual w s h1 hp2]
    refine verify_missing_of_absent _
      ("Netflix Shows", ["datasets", "Netflix", "netflix", "netflix_titles.csv"])
      (by decide) ?_
    exact pathExists_false_of_nonemptyDir_false s.fs netflixDir _ hne (by decide)
  · intro w s hne hpp
    have h1 : (s.fs.pathExists netflixDir && s.fs.nonemptyDir netflixDir) = false := by
      rw [hne, Bool.and_false]
    have h2 : (s.fs.pathExists netflixPrizeDir && s.fs.nonemptyDir netflixPrizeDir) = false := by
      rw [hpp, Bool.false_and]
    rw [run_setup_netflix_manual w s h1 h2]
    refine (verify_missing_of_absent _ ("Netflix Prize", netflixPrizeDir)
      (by decide) ?_).1
    exact hpp
  · intro w s hne
    have h1 : (s.fs.pathExists tmdbDir && s.fs.nonemptyDir tmdbDir) = false := by
      rw [hne, Bool.and_false]
    rw [run_setup_tmdb_manual w s h1]
    refine verify_missing_of_absent _
      ("TMDB", ["datasets", "TMDB", "TMDB_movie_dataset_v11.csv"]) (by decide) ?_
    exact pathExists_false_of_nonemptyDir_false s.fs tmdbDir _ hne (by decide)
  · intro w s hne
    have h1 : (s.fs.pathExists animeDir && s.fs.nonemptyDir animeDir) = false := by
      rw [hne, Bool.and_false]
    rw [run_setup_anime_manual w s h1]
    refine verify_missing_of_absent _
      ("MyAnimeList", ["datasets", "anime", "anime.csv"]) (by decide) ?_
    exact pathExists_false_of_nonemptyDir_false s.fs animeDir _ hne (by decide)

/-- Witness for the amended C6 at a concrete input: on an empty filesystem
with no API access, each Kaggle-mediated routine prints its manual
instructions, touches nothing, and verification reports the datasets
Missing. -/
theorem claim_C6_witness :
    (setup_netflix_datasets wBase false st0 =
      (Except.ok (),
       { st0 with out := st0.out ++ ["", bar70, "Netflix Datasets", bar70, "",
           "[WARNING] Kaggle API not configured - Manual download required",
           "[INFO] Netflix Shows:",
           "  1. Go to: https://www.kaggle.com/datasets/shivamb/netflix-shows",
           "  2. Click \x27Download\x27 button (requires Kaggle login)",
           "  3. Extract netflix_titles.csv to: datasets/Netflix/netflix/",
           "",
           "[INFO] Netflix Prize:",
           "  1. Go to: https://www.kaggle.com/datasets/netflix-inc/netflix-prize-data",
           "  2. Click \x27Download\x27 button (requires Kaggle login)",
           "  3. Extract all files to: datasets/Netflix/netflix_prize/"] })) ∧
    (setup_tmdb_dataset wBase false st0 =
      (Except.ok (),
       { st0 with out := st0.out ++ ["", bar70, "TMDB Dataset", bar70, "",
           "[WARNING] Kaggle API not configured - Manual download required",
           "[INFO] TMDB Movies:",
           "  1. Go to: https://www.kaggle.com/datasets/asaniczka/tmdb-movies-dataset-2023-930k-movies",
           "  2. Click \x27Download\x27 button (requires Kaggle login)",
           "  3. Extract TMDB_movie_dataset_v11.csv to: datasets/TMDB/"] })) ∧
    (setup_anime_dataset wBase false st0 =
      (Except.ok (),
       { st0 with out := st0.out ++ ["", bar70, "MyAnimeList Dataset", bar70, "",
           "[WARNING] Kaggle API not configured - Manual download required",
           "[INFO] MyAnimeList:",
           "  1. Go to: https://www.kaggle.com/datasets/hernan4444/anime-recommendation-database-2020",
           "  2. Click \x27Download\x27 button (requires Kaggle login)",
           "  3. Extract all CSV files to: datasets/anime/"] })) ∧
    (("[ERROR] " ++ ("Netflix Shows" ++ ": Missing")) ∈
       ((verify_datasets ((setup_netflix_datasets wBase false st0).2)).2).out ∧
     (verify_datasets ((setup_netflix_datasets wBase false st0).2)).1 =
       Except.ok false) ∧
    (("[ERROR] " ++ ("Netflix Prize" ++ ": Missing")) ∈
       ((verify_datasets ((setup_netflix_datasets wBase false st0).2)).2).out) ∧
    (("[ERROR] " ++ ("TMDB" ++ ": Missing")) ∈
       ((verify_datasets ((setup_tmdb_dataset wBase false st0).2)).2).out ∧
     (verify_datasets ((setup_tmdb_dataset wBase false st0).2)).1 = Except.ok false) ∧
    (("[ERROR] " ++ ("MyAnimeList" ++ ": Missing")) ∈
       ((verify_datasets ((setup_anime_dataset wBase false st0).2)).2).out ∧
     (verify_datasets ((setup_anime_dataset wBase false st0).2)).1 = Except.ok false) :=
  ⟨claim_C6.1 wBase st0 (by decide) (by decide),
   claim_C6.2.1 wBase st0 (by decide),
   claim_C6.2.2.1 wBase st0 (by decide),
   claim_C6.2.2.2.1 wBase st0 (by decide) (by decide),
   claim_C6.2.2.2.2.1 wBase st0 (by decide) (by decide),
   claim_C6.2.2.2.2.2.1 wBase st0 (by decide),
   claim_C6.2.2.2.2.2.2 wBase st0 (by decide)⟩
